import Mathlib

/-
Verification of the receiver-side client logic of QRPost (src/app/page.tsx).

The page is a React component holding six pieces of state:
sessionId, qrCodeUrl, receivedContent, isConnected, isGenerating,
connectionRetries.  Its handlers (generateSession, refreshSession,
clearReceivedContent, the EventSource onopen/onmessage/onerror callbacks,
openLink) are embedded below as pure functions on an explicit state record.
External effects that the handlers request from the browser (opening an
EventSource, scheduling a setTimeout, registering a setInterval, opening a
window) are returned as explicit action values rather than performed.
-/

namespace QRPost

/-- Content kind of a received item: the `"text" | "link"` union in the
receivedContent state declaration (page.tsx lines 13-20). -/
inductive ContentType
  | text
  | link
deriving DecidableEq, Repr

/-- One entry of the receivedContent array (page.tsx lines 13-20):
`{ id: string, content: string, type: "text" | "link", timestamp: number }`. -/
structure ReceivedItem where
  id : String
  content : String
  type : ContentType
  timestamp : Nat
deriving DecidableEq, Repr

/-- The component's React state (page.tsx lines 11-23). -/
structure ClientState where
  sessionId : String
  qrCodeUrl : String
  receivedContent : List ReceivedItem
  isConnected : Bool
  isGenerating : Bool
  connectionRetries : Nat
deriving DecidableEq, Repr

/-- Body of a successful `POST /api/session` response as consumed by
generateSession (page.tsx lines 30-32): `data.sessionId` and `data.qrCode`. -/
structure SessionResponse where
  sessionId : String
  qrCode : String
deriving DecidableEq, Repr

/-- generateSession, success path (page.tsx lines 26-44): stores the server's
sessionId and qrCode, clears receivedContent, resets connectionRetries to 0;
isGenerating is set true on entry and false in the `finally` block, so it is
false when the handler returns. -/
def generateSession (resp : SessionResponse) (s : ClientState) : ClientState :=
  { s with
      sessionId := resp.sessionId
      qrCodeUrl := resp.qrCode
      receivedContent := []
      connectionRetries := 0
      isGenerating := false }

/-- generateSession, failure path (page.tsx lines 35-43): the catch block only
shows a toast; the `finally` block resets isGenerating. No state field other
than isGenerating changes. -/
def generateSessionFail (s : ClientState) : ClientState :=
  { s with isGenerating := false }

/-- Outcome of the `fetch` in refreshSession (page.tsx lines 50-51): the
response was ok, the response was not ok, or the fetch threw. -/
inductive FetchResult
  | ok
  | notOk
  | threw
deriving DecidableEq, Repr

/-- refreshSession (page.tsx lines 46-61): a no-op when no session id is set;
otherwise it validates the session with `GET /api/session/:id`.  When the
response is not ok it awaits generateSession (with the server's reply `resp`
to the new session request) and shows a non-error toast; when the fetch throws
it likewise awaits generateSession; when the response is ok it does nothing. -/
def refreshSession (res : FetchResult) (resp : SessionResponse) (s : ClientState) : ClientState :=
  if s.sessionId = "" then s
  else
    match res with
    | .ok => s
    | .notOk => generateSession resp s
    | .threw => generateSession resp s

/-- clearReceivedContent (page.tsx lines 63-69): empties receivedContent and
shows a toast; nothing else in the state is touched. -/
def clearReceivedContent (s : ClientState) : ClientState :=
  { s with receivedContent := [] }

/-- Parsed payload of an SSE message (page.tsx line 95): its `type`
discriminator, and for content events a contentType and a content string.
The `id` field stands for any id a sender-side event might carry; the client
code never reads it. -/
structure EventData where
  type : String
  contentType : ContentType
  content : String
  id : String
deriving DecidableEq, Repr

/-- Digit-to-character map of JavaScript's Number.toString(36): digits 0-9
render as characters 0-9, digits 10-35 as characters a-z. -/
def base36Char (d : Fin 36) : Char :=
  if d.val < 10 then Char.ofNat (48 + d.val) else Char.ofNat (87 + d.val)

/-- The client-side display id `Math.random().toString(36).substr(2, 9)`
(page.tsx line 99): toString(36) of a number in [0,1) renders as "0."
followed by the fractional base-36 digits, and substr(2, 9) keeps the first
nine of those digits.  `digits` is the fractional base-36 expansion drawn
from Math.random(). -/
def randomBase36Id (digits : List (Fin 36)) : String :=
  String.mk ((digits.take 9).map base36Char)

/-- eventSource.onmessage (page.tsx lines 94-114): a "content" event prepends
a new item whose id is freshly generated client-side, whose content and type
copy the event's content and contentType, and whose timestamp is Date.now();
a "heartbeat" event only logs to the console; any other type falls through.
`digits` models the Math.random() draw and `now` models Date.now(). -/
def onmessage (digits : List (Fin 36)) (now : Nat) (data : EventData)
    (s : ClientState) : ClientState :=
  if data.type = "content" then
    let newItem : ReceivedItem :=
      { id := randomBase36Id digits
        content := data.content
        type := data.contentType
        timestamp := now }
    { s with receivedContent := newItem :: s.receivedContent }
  else if data.type = "heartbeat" then
    s
  else
    s

/-- eventSource.onopen (page.tsx lines 88-92): marks the stream connected and
resets the retry counter. -/
def onopen (s : ClientState) : ClientState :=
  { s with isConnected := true, connectionRetries := 0 }

/-- A setTimeout the error handler registers (page.tsx lines 125-128): when it
fires it increments connectionRetries and calls connectToSession again. -/
structure ScheduledReconnect where
  delay : Nat
deriving DecidableEq, Repr

/-- eventSource.onerror (page.tsx lines 116-130): marks the stream
disconnected, and when the captured connectionRetries is below 5 registers
exactly one setTimeout with delay `Math.min(1000 * Math.pow(2, retries),
30000)`; at 5 or more retries no timeout is registered. -/
def onerror (s : ClientState) : ClientState × Option ScheduledReconnect :=
  let s' := { s with isConnected := false }
  if s.connectionRetries < 5 then
    (s', some ⟨min (1000 * 2 ^ s.connectionRetries) 30000⟩)
  else
    (s', none)

/-- The body of the setTimeout callback registered by onerror (page.tsx lines
125-128): increments connectionRetries; connectToSession is then invoked,
which the SSE effect models. -/
def fireReconnect (s : ClientState) : ClientState :=
  { s with connectionRetries := s.connectionRetries + 1 }

/-- The EventSource connectToSession opens (page.tsx line 86). -/
structure ConnectAction where
  url : String
deriving DecidableEq, Repr

/-- The SSE useEffect (page.tsx lines 75-143): with an empty session id it
returns without connecting; otherwise it synchronously calls connectToSession,
which opens `new EventSource("/api/listen/" + sessionId)` with no delay. -/
def sseEffect (sessionId : String) : Option ConnectAction :=
  if sessionId = "" then none
  else some ⟨"/api/listen/" ++ sessionId⟩

/-- A setInterval registration: its period in milliseconds and the handler run
on each tick. -/
structure IntervalAction where
  intervalMs : Nat
  tick : FetchResult → SessionResponse → ClientState → ClientState

/-- The refresh useEffect (page.tsx lines 145-150): with an empty session id
it registers nothing; otherwise it registers
`setInterval(refreshSession, 30 * 60 * 1000)`. -/
def refreshIntervalEffect (sessionId : String) : Option IntervalAction :=
  if sessionId = "" then none
  else some ⟨30 * 60 * 1000, refreshSession⟩

/-- A window.open call: target URL and target window name. -/
structure OpenAction where
  url : String
  target : String
deriving DecidableEq, Repr

/-- JavaScript's String.prototype.startsWith as invoked at page.tsx line 169:
true when `pre` is a prefix of `s`, modelled on the character list so the
predicate is kernel-computable. -/
def jsStartsWith (s pre : String) : Bool :=
  pre.data.isPrefixOf s.data

/-- openLink (page.tsx lines 168-171): prefixes "https://" unless the stored
content already starts with "http", then opens the result via
`window.open(fullUrl, "_blank")`. -/
def openLink (url : String) : OpenAction :=
  let fullUrl := if jsStartsWith url "http" then url else "https://" ++ url
  ⟨fullUrl, "_blank"⟩

/-- Iterated application of the error handler: the state after `n` consecutive
stream errors (discarding the scheduled timeouts, which the cleanup clears). -/
def runErrors (s : ClientState) : Nat → ClientState
  | 0 => s
  | n + 1 => runErrors (onerror s).1 n

/-- Folding onmessage over a sequence of received events, each paired with its
Math.random() draw and its Date.now() reading. -/
def processEvents (s : ClientState) :
    List (List (Fin 36) × Nat × EventData) → ClientState
  | [] => s
  | (d, n, e) :: rest => processEvents (onmessage d n e s) rest

/-- The item a content event materialises (page.tsx lines 98-103). -/
def mkItem (ev : List (Fin 36) × Nat × EventData) : ReceivedItem :=
  { id := randomBase36Id ev.1
    content := ev.2.2.content
    type := ev.2.2.contentType
    timestamp := ev.2.1 }

/-- The error handler leaves every state field except isConnected alone. -/
theorem onerror_state (s : ClientState) :
    (onerror s).1 = { s with isConnected := false } := by
  unfold onerror
  split <;> rfl

/-- Iterated errors never change the retry counter. -/
theorem runErrors_retries (n : Nat) : ∀ s : ClientState,
    (runErrors s n).connectionRetries = s.connectionRetries := by
  induction n with
  | zero => intro s; rfl
  | succ n ih =>
      intro s
      have h := ih (onerror s).1
      rw [runErrors, h, onerror_state]

/-- After at least one error the connection flag stays false through any
further errors. -/
theorem runErrors_disconnected (n : Nat) : ∀ s : ClientState,
    (runErrors (onerror s).1 n).isConnected = false := by
  induction n with
  | zero =>
      intro s
      rw [runErrors, onerror_state]
  | succ n ih =>
      intro s
      rw [runErrors]
      exact ih (onerror s).1

/-- Processing a run of content events prepends one item per event, so the
resulting list is the arrival order reversed, on top of whatever was there. -/
theorem processEvents_content (evs : List (List (Fin 36) × Nat × EventData)) :
    ∀ s : ClientState, (∀ ev ∈ evs, ev.2.2.type = "content") →
    (processEvents s evs).receivedContent =
      (evs.map mkItem).reverse ++ s.receivedContent := by
  induction evs with
  | nil => intro s _; simp [processEvents]
  | cons ev rest ih =>
      intro s h
      obtain ⟨d, n, e⟩ := ev
      have hty : e.type = "content" := h (d, n, e) (List.mem_cons_self _ _)
      have hrest : ∀ x ∈ rest, x.2.2.type = "content" :=
        fun x hx => h x (List.mem_cons_of_mem _ hx)
      rw [processEvents, ih (onmessage d n e s) hrest]
      simp [onmessage, hty, mkItem]

/-- C1: on a stream error with the retry counter below 5, the handler marks
the stream disconnected and registers exactly one reconnect timeout with
delay min(1000 * 2^retries, 30000); when that timeout fires the counter is
incremented by one; and as soon as a session id is known the SSE effect
immediately opens the EventSource for it. -/
theorem reconnect_backoff (s : ClientState) (h : s.connectionRetries < 5) :
    onerror s = ({ s with isConnected := false },
        some ⟨min (1000 * 2 ^ s.connectionRetries) 30000⟩) ∧
    (fireReconnect s).connectionRetries = s.connectionRetries + 1 ∧
    ∀ sid : String, sid ≠ "" → sseEffect sid = some ⟨"/api/listen/" ++ sid⟩ := by
  refine ⟨?_, rfl, ?_⟩
  · unfold onerror
    rw [if_pos h]
  · intro sid hs
    unfold sseEffect
    rw [if_neg hs]

/-- Witness for C1 at a concrete state with two retries already used. -/
theorem reconnect_backoff_witness :
    onerror ⟨"s1", "q", [], true, false, 2⟩ =
      (⟨"s1", "q", [], false, false, 2⟩, some ⟨4000⟩) := by
  rw [(reconnect_backoff ⟨"s1", "q", [], true, false, 2⟩ (by decide)).1]
  decide

/-- C2: once the retry counter is at least 5, no stream error ever registers
another reconnect timeout, and any run of further errors leaves the client
disconnected with the retry counter unchanged. -/
theorem exhausted_no_reconnect (s : ClientState) (h : 5 ≤ s.connectionRetries)
    (n : Nat) :
    (onerror (runErrors s n)).2 = none ∧
    (runErrors s (n + 1)).isConnected = false ∧
    (runErrors s (n + 1)).connectionRetries = s.connectionRetries := by
  refine ⟨?_, ?_, runErrors_retries (n + 1) s⟩
  · have hr : (runErrors s n).connectionRetries = s.connectionRetries :=
      runErrors_retries n s
    unfold onerror
    rw [if_neg (by rw [hr]; exact Nat.not_lt.2 h)]
  · rw [runErrors]
    exact runErrors_disconnected n s

/-- Witness for C2 at a concrete exhausted state and two further errors. -/
theorem exhausted_no_reconnect_witness :
    (onerror (runErrors ⟨"s1", "q", [], false, false, 5⟩ 1)).2 = none ∧
    (runErrors ⟨"s1", "q", [], false, false, 5⟩ 2).isConnected = false ∧
    (runErrors ⟨"s1", "q", [], false, false, 5⟩ 2).connectionRetries = 5 :=
  exhausted_no_reconnect ⟨"s1", "q", [], false, false, 5⟩ (by decide) 1

/-- C3: with a session id set, a not-ok validation response (and likewise a
thrown fetch) makes refreshSession create a brand-new session via
generateSession, so the session id becomes the newly minted one; an ok
response leaves the state, in particular the session id, unchanged. -/
theorem refresh_creates_new_session (s : ClientState) (resp : SessionResponse)
    (h : s.sessionId ≠ "") :
    refreshSession .notOk resp s = generateSession resp s ∧
    refreshSession .threw resp s = generateSession resp s ∧
    (refreshSession .notOk resp s).sessionId = resp.sessionId ∧
    refreshSession .ok resp s = s ∧
    (refreshSession .ok resp s).sessionId = s.sessionId := by
  simp [refreshSession, generateSession, h]

/-- Witness for C3 at a concrete attached session. -/
theorem refresh_creates_new_session_witness :
    refreshSession .notOk ⟨"new", "q2"⟩ ⟨"old", "q1", [], true, false, 3⟩ =
      generateSession ⟨"new", "q2"⟩ ⟨"old", "q1", [], true, false, 3⟩ ∧
    refreshSession .threw ⟨"new", "q2"⟩ ⟨"old", "q1", [], true, false, 3⟩ =
      generateSession ⟨"new", "q2"⟩ ⟨"old", "q1", [], true, false, 3⟩ ∧
    (refreshSession .notOk ⟨"new", "q2"⟩
      ⟨"old", "q1", [], true, false, 3⟩).sessionId = "new" ∧
    refreshSession .ok ⟨"new", "q2"⟩ ⟨"old", "q1", [], true, false, 3⟩ =
      ⟨"old", "q1", [], true, false, 3⟩ ∧
    (refreshSession .ok ⟨"new", "q2"⟩
      ⟨"old", "q1", [], true, false, 3⟩).sessionId = "old" :=
  refresh_creates_new_session ⟨"old", "q1", [], true, false, 3⟩ ⟨"new", "q2"⟩
    (by decide)

/-- C4: while a session id is set, the refresh effect registers a single
setInterval whose period is exactly 30 * 60 * 1000 = 1800000 ms and whose
tick handler is refreshSession; with no session id it registers nothing. -/
theorem refresh_interval_thirty_minutes (sid : String) (h : sid ≠ "") :
    refreshIntervalEffect sid = some ⟨1800000, refreshSession⟩ ∧
    refreshIntervalEffect "" = none := by
  constructor
  · unfold refreshIntervalEffect
    rw [if_neg h]
  · rfl

/-- Witness for C4 at a concrete session id. -/
theorem refresh_interval_thirty_minutes_witness :
    refreshIntervalEffect "s1" = some ⟨1800000, refreshSession⟩ ∧
    refreshIntervalEffect "" = none :=
  refresh_interval_thirty_minutes "s1" (by decide)

/-- C5: over any run of content events the received list is the arrival order
reversed (each new item prepended, newest first); the id of each produced
item is the client-side random base-36 draw, and the handler is insensitive
to any id carried by the event itself. -/
theorem reverse_chronological (s : ClientState)
    (evs : List (List (Fin 36) × Nat × EventData))
    (h : ∀ ev ∈ evs, ev.2.2.type = "content") :
    (processEvents s evs).receivedContent =
      (evs.map mkItem).reverse ++ s.receivedContent ∧
    (∀ ev : List (Fin 36) × Nat × EventData,
      (mkItem ev).id = randomBase36Id ev.1) ∧
    ∀ (d : List (Fin 36)) (n : Nat) (e : EventData) (x : String)
      (t : ClientState), onmessage d n { e with id := x } t = onmessage d n e t :=
  ⟨processEvents_content evs s h, fun _ => rfl, fun _ _ _ _ _ => rfl⟩

/-- Witness for C5: two concrete content events end up newest-first with
client-generated ids, ignoring the server-supplied ids. -/
theorem reverse_chronological_witness :
    (processEvents ⟨"s1", "q", [], true, false, 0⟩
      [([(10 : Fin 36)], 10, ⟨"content", .text, "hello", "srv1"⟩),
       ([], 20, ⟨"content", .link, "example.com", "srv2"⟩)]).receivedContent =
      [⟨"", "example.com", .link, 20⟩, ⟨"a", "hello", .text, 10⟩] := by
  rw [(reverse_chronological ⟨"s1", "q", [], true, false, 0⟩
    [([(10 : Fin 36)], 10, ⟨"content", .text, "hello", "srv1"⟩),
     ([], 20, ⟨"content", .link, "example.com", "srv2"⟩)] (by decide)).1]
  decide

/-- C6: a "content" event adds exactly one item, prepended, whose content is
the event's content verbatim and whose type is the event's contentType
verbatim, so the list grows by exactly one. -/
theorem content_event (d : List (Fin 36)) (n : Nat) (e : EventData)
    (s : ClientState) (h : e.type = "content") :
    (onmessage d n e s).receivedContent =
      { id := randomBase36Id d, content := e.content, type := e.contentType,
        timestamp := n } :: s.receivedContent ∧
    (onmessage d n e s).receivedContent.length =
      s.receivedContent.length + 1 := by
  have hmain : (onmessage d n e s).receivedContent =
      { id := randomBase36Id d, content := e.content, type := e.contentType,
        timestamp := n } :: s.receivedContent := by
    unfold onmessage
    rw [if_pos h]
  exact ⟨hmain, by rw [hmain]; rfl⟩

/-- Witness for C6 at a concrete link event. -/
theorem content_event_witness :
    (onmessage [] 5 ⟨"content", .link, "example.com", "x"⟩
      ⟨"s1", "q", [], true, false, 0⟩).receivedContent =
      [⟨"", "example.com", .link, 5⟩] ∧
    (onmessage [] 5 ⟨"content", .link, "example.com", "x"⟩
      ⟨"s1", "q", [], true, false, 0⟩).receivedContent.length = 1 := by
  have h := content_event [] 5 ⟨"content", .link, "example.com", "x"⟩
    ⟨"s1", "q", [], true, false, 0⟩ (by decide)
  exact ⟨h.1.trans (by decide), h.2⟩

/-- C7: a "heartbeat" event changes nothing at all: the whole client state,
in particular the received list, session id and retry counter, is returned
untouched. -/
theorem heartbeat_frame (d : List (Fin 36)) (n : Nat) (e : EventData)
    (s : ClientState) (h : e.type = "heartbeat") :
    onmessage d n e s = s ∧
    (onmessage d n e s).receivedContent = s.receivedContent ∧
    (onmessage d n e s).sessionId = s.sessionId ∧
    (onmessage d n e s).connectionRetries = s.connectionRetries := by
  have hmain : onmessage d n e s = s := by
    unfold onmessage
    rw [h, if_neg (by decide), if_pos rfl]
  exact ⟨hmain, by rw [hmain], by rw [hmain], by rw [hmain]⟩

/-- Witness for C7 at a concrete heartbeat event. -/
theorem heartbeat_frame_witness :
    onmessage [] 7 ⟨"heartbeat", .text, "", ""⟩
      ⟨"s1", "q", [⟨"a", "hi", .text, 1⟩], true, false, 2⟩ =
      ⟨"s1", "q", [⟨"a", "hi", .text, 1⟩], true, false, 2⟩ ∧
    (onmessage [] 7 ⟨"heartbeat", .text, "", ""⟩
      ⟨"s1", "q", [⟨"a", "hi", .text, 1⟩], true, false, 2⟩).receivedContent =
      [⟨"a", "hi", .text, 1⟩] ∧
    (onmessage [] 7 ⟨"heartbeat", .text, "", ""⟩
      ⟨"s1", "q", [⟨"a", "hi", .text, 1⟩], true, false, 2⟩).sessionId = "s1" ∧
    (onmessage [] 7 ⟨"heartbeat", .text, "", ""⟩
      ⟨"s1", "q", [⟨"a", "hi", .text, 1⟩], true, false, 2⟩).connectionRetries
      = 2 :=
  heartbeat_frame [] 7 ⟨"heartbeat", .text, "", ""⟩
    ⟨"s1", "q", [⟨"a", "hi", .text, 1⟩], true, false, 2⟩ (by decide)

/-- C8: openLink opens the content unchanged when it starts with "http" and
otherwise prefixes "https://", in both cases targeting a new tab via
"_blank". -/
theorem openLink_spec (url : String) :
    (jsStartsWith url "http" = true → openLink url = ⟨url, "_blank"⟩) ∧
    (jsStartsWith url "http" = false →
      openLink url = ⟨"https://" ++ url, "_blank"⟩) ∧
    (openLink url).target = "_blank" := by
  refine ⟨fun h => by simp [openLink, h], fun h => by simp [openLink, h], ?_⟩
  unfold openLink
  split <;> rfl

/-- Witness for C8 at a bare host string lacking the http prefix. -/
theorem openLink_spec_witness :
    openLink "example.com" = ⟨"https://example.com", "_blank"⟩ :=
  (openLink_spec "example.com").2.1 (by decide)

/-- C9: a successful generateSession installs the server's session id and QR
payload, empties the received list, and zeroes the retry counter, so nothing
carries over from the previous session. -/
theorem generateSession_resets (resp : SessionResponse) (s : ClientState) :
    (generateSession resp s).sessionId = resp.sessionId ∧
    (generateSession resp s).qrCodeUrl = resp.qrCode ∧
    (generateSession resp s).receivedContent = [] ∧
    (generateSession resp s).connectionRetries = 0 :=
  ⟨rfl, rfl, rfl, rfl⟩

/-- C10: clearReceivedContent empties the received list and leaves session
id, QR payload, connection flag and retry counter untouched. -/
theorem clearReceivedContent_frame (s : ClientState) :
    (clearReceivedContent s).receivedContent = [] ∧
    (clearReceivedContent s).sessionId = s.sessionId ∧
    (clearReceivedContent s).qrCodeUrl = s.qrCodeUrl ∧
    (clearReceivedContent s).isConnected = s.isConnected ∧
    (clearReceivedContent s).connectionRetries = s.connectionRetries :=
  ⟨rfl, rfl, rfl, rfl, rfl⟩

end QRPost
